/-
Verification of the NDevTK/Dynamic-Random repository's two automation
scripts (`verification_script.py` and
`jules-scratch/verification/verify_refactor.py`) against their
natural-language specification.

Both scripts are straight-line Playwright drivers.  We embed each script
as a pure function from an environment of step outcomes (which fallible
browser steps succeed on this run) to the trace of completed observable
events together with the way the run terminates (normal return or an
uncaught exception).  A small filesystem model interprets the
filesystem-affecting events (`os.makedirs` and screenshot saving), so
that claims about files on disk can be stated and proved.
-/
import Mathlib

set_option autoImplicit false

/-- Observable events a run can emit, in the order they complete.
Only completed steps appear in the trace; a step that raises emits no
event and the exception is recorded in the run's `Outcome`. -/
inductive Event where
  /-- `os.makedirs(d, exist_ok=True)` -/
  | makedirs (d : String)
  /-- `p.chromium.launch(...)` completed -/
  | launch
  /-- `browser.new_page()` completed -/
  | newPage
  /-- `page.set_viewport_size({"width": w, "height": h})` completed -/
  | setViewport (w h : Nat)
  /-- `page.goto(url)` completed -/
  | navigate (url : String)
  /-- `page.wait_for_selector(sel)` matched -/
  | waitForSelector (sel : String)
  /-- `time.sleep(s)` -/
  | sleepSec (s : Nat)
  /-- `page.mouse.move(x, y)` completed -/
  | mouseMove (x y : Nat)
  /-- `page.screenshot(path=p)` completed (file written) -/
  | screenshot (path : String)
  /-- `browser.close()` -/
  | browserClose
  /-- the `with sync_playwright() as p:` block exited: Playwright is
  stopped, which closes every browser it launched -/
  | playwrightStop
  /-- `print(m)` -/
  | printMsg (m : String)
deriving DecidableEq

/-- Whether an event is a `print` (log output). -/
def Event.isPrint : Event → Bool
  | Event.printMsg _ => true
  | _ => false

/-- Whether an event is a simulated pointer movement. -/
def Event.isMouseMove : Event → Bool
  | Event.mouseMove _ _ => true
  | _ => false

/-- Whether an event is a log line produced by the `except` handler of
`verification_script.py`, i.e. a printed message starting with
`"Error: "`. -/
def Event.isErrorLog : Event → Bool
  | Event.printMsg m => m.data.take 7 == "Error: ".data
  | _ => false

/-- Kinds of exception a fallible step can raise, following the error
taxonomy of the spec (launch / navigation / element wait / capture),
plus page-setup and pointer errors for the remaining fallible calls. -/
inductive Exn where
  | launchError
  | newPageError
  | viewportError
  | navigationError
  | elementNotFoundError
  | mouseError
  | captureError
deriving DecidableEq

/-- The human-readable message carried by an exception; in Python this
is `str(e)` for the Playwright error `e`.  The exact wording is
runtime-determined; we model it as a fixed message per kind. -/
def errMessage : Exn → String
  | Exn.launchError => "browser launch failed"
  | Exn.newPageError => "could not open page"
  | Exn.viewportError => "could not set viewport size"
  | Exn.navigationError => "net::ERR_CONNECTION_REFUSED at http://localhost:8000"
  | Exn.elementNotFoundError => "timeout waiting for selector"
  | Exn.mouseError => "mouse move failed"
  | Exn.captureError => "screenshot capture failed"

/-- How a run terminates: a normal return, or an exception that
propagates out of the script function to its caller. -/
inductive Outcome where
  | normal
  | raised (e : Exn)
deriving DecidableEq

/-- The per-run environment: which fallible browser step succeeds on
this run.  Each field corresponds to one external call that can raise. -/
structure Env where
  launchOk : Bool
  newPageOk : Bool
  viewportOk : Bool
  gotoOk : Bool
  waitOk : Bool
  mouse1Ok : Bool
  mouse2Ok : Bool
  screenshotOk : Bool
deriving DecidableEq

namespace VerificationScript

/-- the directory created at the top of `run_verification` -/
def verificationDir : String := "/home/jules/verification"

/-- `screenshot_path` in `run_verification` -/
def screenshot_path : String := "/home/jules/verification/background_check.png"

/-- Embedding of `run_verification()` from `src/verification_script.py`.

Control flow mirrored from the source: `os.makedirs` first; then inside
`with sync_playwright() as p:` the launch, `new_page` and
`set_viewport_size` calls run outside any `try`, so their exceptions
propagate (the `with` block still stops Playwright on the way out).
The `try` body is goto / wait_for_selector / sleeps / two mouse moves /
screenshot; `except Exception as e` prints `f"Error: {e}"`;
`finally` calls `browser.close()`; the exit of the `with` block stops
Playwright. -/
def run_verification (env : Env) : List Event × Outcome :=
  let t0 := [Event.makedirs verificationDir]
  if !env.launchOk then
    (t0 ++ [Event.playwrightStop], Outcome.raised Exn.launchError)
  else
    let t1 := t0 ++ [Event.launch]
    if !env.newPageOk then
      (t1 ++ [Event.playwrightStop], Outcome.raised Exn.newPageError)
    else
      let t2 := t1 ++ [Event.newPage]
      if !env.viewportOk then
        (t2 ++ [Event.playwrightStop], Outcome.raised Exn.viewportError)
      else
        let t3 := t2 ++ [Event.setViewport 1280 720]
        let t4 := t3 ++ [Event.printMsg "Navigating to http://localhost:8000"]
        let catchAt := fun (t : List Event) (e : Exn) =>
          (t ++ [Event.printMsg ("Error: " ++ errMessage e),
                 Event.browserClose, Event.playwrightStop],
           Outcome.normal)
        if !env.gotoOk then catchAt t4 Exn.navigationError
        else
          let t5 := t4 ++ [Event.navigate "http://localhost:8000"]
          if !env.waitOk then catchAt t5 Exn.elementNotFoundError
          else
            let t6 := t5 ++ [Event.waitForSelector "#background-canvas",
                             Event.printMsg "Background canvas found",
                             Event.sleepSec 2]
            if !env.mouse1Ok then catchAt t6 Exn.mouseError
            else
              let t7 := t6 ++ [Event.mouseMove 640 360, Event.sleepSec 1]
              if !env.mouse2Ok then catchAt t7 Exn.mouseError
              else
                let t8 := t7 ++ [Event.mouseMove 700 400, Event.sleepSec 1]
                if !env.screenshotOk then catchAt t8 Exn.captureError
                else
                  (t8 ++ [Event.screenshot screenshot_path,
                          Event.printMsg ("Screenshot saved to " ++ screenshot_path),
                          Event.browserClose, Event.playwrightStop],
                   Outcome.normal)

/-- Process exit status of `python verification_script.py`: the
`__main__` guard just calls `run_verification()`; Python exits 0 on a
normal return and 1 on an uncaught exception. -/
def mainExitCode (env : Env) : Nat :=
  match (run_verification env).2 with
  | Outcome.normal => 0
  | Outcome.raised _ => 1

end VerificationScript

namespace VerifyRefactor

/-- the `path=` argument of `page.screenshot` in `verify_refactor.py` -/
def screenshotPath : String := "jules-scratch/verification/verification.png"

/-- Embedding of `run()` from
`src/jules-scratch/verification/verify_refactor.py`.

The whole body sits inside `with sync_playwright() as p:` with no
`try`/`except`/`finally`: every step's exception propagates to the
caller (after the `with` exit stops Playwright), and `browser.close()`
runs only when every preceding step succeeded. -/
def run (env : Env) : List Event × Outcome :=
  if !env.launchOk then
    ([Event.playwrightStop], Outcome.raised Exn.launchError)
  else if !env.newPageOk then
    ([Event.launch, Event.playwrightStop], Outcome.raised Exn.newPageError)
  else if !env.gotoOk then
    ([Event.launch, Event.newPage, Event.playwrightStop],
     Outcome.raised Exn.navigationError)
  else if !env.waitOk then
    ([Event.launch, Event.newPage, Event.navigate "http://localhost:8000",
      Event.playwrightStop],
     Outcome.raised Exn.elementNotFoundError)
  else if !env.screenshotOk then
    ([Event.launch, Event.newPage, Event.navigate "http://localhost:8000",
      Event.waitForSelector "#particles-js canvas", Event.playwrightStop],
     Outcome.raised Exn.captureError)
  else
    ([Event.launch, Event.newPage, Event.navigate "http://localhost:8000",
      Event.waitForSelector "#particles-js canvas",
      Event.screenshot screenshotPath, Event.browserClose,
      Event.playwrightStop],
     Outcome.normal)

/-- Process exit status of `python verify_refactor.py` via its
`__main__` guard. -/
def mainExitCode (env : Env) : Nat :=
  match (run env).2 with
  | Outcome.normal => 0
  | Outcome.raised _ => 1

end VerifyRefactor

/-- A model of the parts of the filesystem the scripts touch: a set of
existing directories and a map from file paths to file contents
(contents abstracted as a `Nat` tag, enough to observe overwriting). -/
structure FS where
  dirs : List String
  files : List (String × Nat)
deriving DecidableEq

namespace FS

/-- `os.makedirs(d, exist_ok=True)`: create `d` if absent, no error and
no change if it already exists. -/
def mkdir (fs : FS) (d : String) : FS :=
  if d ∈ fs.dirs then fs else ⟨d :: fs.dirs, fs.files⟩

/-- Write content `c` to path `p`, overwriting any previous content. -/
def write (fs : FS) (p : String) (c : Nat) : FS :=
  ⟨fs.dirs, (p, c) :: fs.files.filter (fun pr => pr.1 != p)⟩

/-- The content currently stored at path `p`, if any. -/
def read (fs : FS) (p : String) : Option Nat :=
  (fs.files.find? (fun pr => pr.1 == p)).map Prod.snd

end FS

/-- The directory component of a path: everything before the final
`/`-separated segment (e.g. the parent of `"a/b/c.png"` is `"a/b"`). -/
def parentDir (p : String) : String :=
  String.mk ((((p.data.reverse).dropWhile (fun c => c != '/')).drop 1).reverse)

/-- How one completed event changes the filesystem.  `makedirs` adds a
directory; `page.screenshot(path=p)` saves the capture at `p`, and
Playwright creates missing parent directories of a screenshot save
path before writing (its `mkdirIfNeeded` helper).  `c` is the captured
image content of this run.  All other events leave the filesystem
alone. -/
def applyEvent (c : Nat) (fs : FS) (e : Event) : FS :=
  match e with
  | Event.makedirs d => fs.mkdir d
  | Event.screenshot p => (fs.mkdir (parentDir p)).write p c
  | _ => fs

/-- The filesystem after a trace of events, given this run's captured
image content `c`. -/
def runFS (c : Nat) (fs : FS) (t : List Event) : FS :=
  t.foldl (applyEvent c) fs

/-- The event trace of one `run_verification` run. -/
def vTrace (env : Env) : List Event :=
  (VerificationScript.run_verification env).1

/-- One invocation of `run_verification` against a starting filesystem:
the trace and outcome (which, as in the source, are a function of the
step outcomes alone — the script reads no state), and the filesystem it
leaves behind, `c` being the image content captured on this run. -/
def runVerificationOn (env : Env) (c : Nat) (fs : FS) :
    (List Event × Outcome) × FS :=
  (VerificationScript.run_verification env,
   runFS c fs (VerificationScript.run_verification env).1)

/-- The fixed step order of `verification_script.py`: makedirs, launch,
new page, viewport, navigate, selector wait, settling delay, the two
pointer moves with their pauses, screenshot, browser close, Playwright
stop. -/
def verificationStepOrder : List Event :=
  [Event.makedirs VerificationScript.verificationDir,
   Event.launch, Event.newPage, Event.setViewport 1280 720,
   Event.navigate "http://localhost:8000",
   Event.waitForSelector "#background-canvas",
   Event.sleepSec 2,
   Event.mouseMove 640 360, Event.sleepSec 1,
   Event.mouseMove 700 400, Event.sleepSec 1,
   Event.screenshot VerificationScript.screenshot_path,
   Event.browserClose, Event.playwrightStop]

/-- The fixed step order of `verify_refactor.py`: launch, new page,
navigate, selector wait, screenshot, browser close, Playwright stop. -/
def refactorStepOrder : List Event :=
  [Event.launch, Event.newPage,
   Event.navigate "http://localhost:8000",
   Event.waitForSelector "#particles-js canvas",
   Event.screenshot VerifyRefactor.screenshotPath,
   Event.browserClose, Event.playwrightStop]

namespace FS

@[simp] theorem mkdir_files (fs : FS) (d : String) :
    (fs.mkdir d).files = fs.files := by
  unfold mkdir; split <;> rfl

@[simp] theorem write_dirs (fs : FS) (p : String) (c : Nat) :
    (fs.write p c).dirs = fs.dirs := rfl

theorem mem_mkdir_self (fs : FS) (d : String) : d ∈ (fs.mkdir d).dirs := by
  unfold mkdir; split
  case isTrue h => exact h
  case isFalse h => exact List.mem_cons_self d fs.dirs

theorem mem_mkdir_of_mem (fs : FS) (d x : String) (h : x ∈ fs.dirs) :
    x ∈ (fs.mkdir d).dirs := by
  unfold mkdir; split
  case isTrue _ => exact h
  case isFalse _ => exact List.mem_cons_of_mem d h

theorem mkdir_of_mem (fs : FS) (d : String) (h : d ∈ fs.dirs) :
    fs.mkdir d = fs := by
  unfold mkdir; simp [h]

@[simp] theorem mkdir_mkdir_self (fs : FS) (d : String) :
    (fs.mkdir d).mkdir d = fs.mkdir d :=
  mkdir_of_mem _ d (mem_mkdir_self fs d)

@[simp] theorem read_mkdir (fs : FS) (d q : String) :
    (fs.mkdir d).read q = fs.read q := by
  unfold mkdir read; split <;> rfl

@[simp] theorem read_write_self (fs : FS) (p : String) (c : Nat) :
    (fs.write p c).read p = some c := by
  simp [write, read, List.find?]

theorem read_write_other (fs : FS) (p q : String) (c : Nat) (h : q ≠ p) :
    (fs.write p c).read q = fs.read q := by
  have hpq : (p == q) = false := beq_eq_false_iff_ne.2 fun hc => h hc.symm
  have key : ∀ fl : List (String × Nat),
      List.find? (fun pr => pr.1 == q) (List.filter (fun pr => pr.1 != p) fl) =
        List.find? (fun pr => pr.1 == q) fl := by
    intro fl
    induction fl with
    | nil => rfl
    | cons a rest ih =>
      by_cases ha : a.1 = p
      · have h1 : (a.1 != p) = false := by simp [ha]
        have h2 : (a.1 == q) = false :=
          beq_eq_false_iff_ne.2 (by rw [ha]; exact fun hc => h hc.symm)
        simp [List.filter_cons, h1, List.find?_cons, h2, ih]
      · have h1 : (a.1 != p) = true := by simp [ha]
        simp [List.filter_cons, h1, List.find?_cons, ih]
  simp [write, read, List.find?_cons, hpq, key]

theorem write_write_self (fs : FS) (p : String) (c₁ c₂ : Nat) :
    ((fs.write p c₁).write p c₂) = fs.write p c₂ := by
  unfold write
  simp [List.filter_filter]

end FS

/-- The parent of the screenshot path in `verification_script.py` is
exactly the directory the script creates up front. -/
theorem parentDir_screenshot_path :
    parentDir VerificationScript.screenshot_path =
      VerificationScript.verificationDir := by decide

/-- The parent of the screenshot path in `verify_refactor.py`. -/
theorem parentDir_refactor_path :
    parentDir VerifyRefactor.screenshotPath = "jules-scratch/verification" := by
  decide

/-- Filesystem effect of one `run_verification` trace: the run always
creates `/home/jules/verification`, and exactly when every step
succeeds it additionally saves the screenshot at `screenshot_path`. -/
theorem runFS_run_verification (l np vp g w m1 m2 s : Bool) (c : Nat) (fs : FS) :
    runFS c fs (VerificationScript.run_verification ⟨l, np, vp, g, w, m1, m2, s⟩).1 =
      if l && np && vp && g && w && m1 && m2 && s then
        (fs.mkdir VerificationScript.verificationDir).write
          VerificationScript.screenshot_path c
      else fs.mkdir VerificationScript.verificationDir := by
  cases l <;> cases np <;> cases vp <;> cases g <;> cases w <;> cases m1 <;>
    cases m2 <;> cases s <;>
    simp [VerificationScript.run_verification, runFS, applyEvent,
      parentDir_screenshot_path]

/-- Filesystem effect of one `run` trace of `verify_refactor.py`: the
filesystem is untouched unless every step succeeds, in which case the
screenshot is saved (with its parent directory created by the
screenshot save itself — the script never calls `makedirs`). -/
theorem runFS_refactor_run (l np vp g w m1 m2 s : Bool) (c : Nat) (fs : FS) :
    runFS c fs (VerifyRefactor.run ⟨l, np, vp, g, w, m1, m2, s⟩).1 =
      if l && np && g && w && s then
        (fs.mkdir "jules-scratch/verification").write
          VerifyRefactor.screenshotPath c
      else fs := by
  cases l <;> cases np <;> cases g <;> cases w <;> cases s <;>
    simp [VerifyRefactor.run, runFS, applyEvent, parentDir_refactor_path]

/-- The screenshot of `verification_script.py` is captured exactly when
every step of the run succeeds. -/
theorem shot_mem_vTrace_iff : ∀ l np vp g w m1 m2 s : Bool,
    (Event.screenshot VerificationScript.screenshot_path ∈
        vTrace ⟨l, np, vp, g, w, m1, m2, s⟩ ↔
      (l && np && vp && g && w && m1 && m2 && s) = true) := by
  decide

/-- C1 counterexample: the claim that every error of every step is
caught at the top level, logged, and converted, with no exception
propagating, is false on the code.  A launch failure in
`verification_script.py` happens outside the `try` block, so it
propagates uncaught to the caller with nothing logged; likewise a
navigation failure in `verify_refactor.py` (which has no handler at
all) propagates uncaught. -/
theorem c1_counterexample :
    (VerificationScript.run_verification
        ⟨false, true, true, true, true, true, true, true⟩).2 =
      Outcome.raised Exn.launchError ∧
    List.all (VerificationScript.run_verification
        ⟨false, true, true, true, true, true, true, true⟩).1
      (fun e => !e.isPrint) = true ∧
    (VerifyRefactor.run ⟨true, true, true, false, true, true, true, true⟩).2 =
      Outcome.raised Exn.navigationError := by decide

/-- C1 (amended): in `verification_script.py`, once launch, page
creation and viewport setup have succeeded, any error raised by a later
step (navigation, selector wait, pointer interaction, capture) is
caught by the run's `except` handler, logged with a human-readable
`"Error: ..."` message, and the run returns normally; errors in launch,
page creation or viewport setup propagate uncaught, as does every error
in `verify_refactor.py`, which logs nothing of its own. -/
theorem c1_amended : ∀ l np vp g w m1 m2 s : Bool,
    ((l && np && vp) = true →
      (VerificationScript.run_verification ⟨l, np, vp, g, w, m1, m2, s⟩).2 =
        Outcome.normal) ∧
    ((l && np && vp) = true → (g && w && m1 && m2 && s) = false →
      List.any (VerificationScript.run_verification
          ⟨l, np, vp, g, w, m1, m2, s⟩).1 Event.isErrorLog = true) ∧
    ((l && np && vp) = false →
      (VerificationScript.run_verification ⟨l, np, vp, g, w, m1, m2, s⟩).2 ≠
        Outcome.normal) ∧
    ((l && np && g && w && s) = false →
      (VerifyRefactor.run ⟨l, np, vp, g, w, m1, m2, s⟩).2 ≠ Outcome.normal) ∧
    List.any (VerifyRefactor.run ⟨l, np, vp, g, w, m1, m2, s⟩).1
      Event.isPrint = false := by
  decide

/-- C1 witness: on the concrete run of `verification_script.py` whose
navigation step fails (setup succeeding), the run returns normally and
an `"Error: ..."` line is logged. -/
theorem c1_witness :
    (VerificationScript.run_verification
        ⟨true, true, true, false, true, true, true, true⟩).2 =
      Outcome.normal ∧
    List.any (VerificationScript.run_verification
        ⟨true, true, true, false, true, true, true, true⟩).1
      Event.isErrorLog = true :=
  ⟨(c1_amended true true true false true true true true).1 rfl,
   (c1_amended true true true false true true true true).2.1 rfl rfl⟩

/-- C2: on every run of either script, once the browser has been
launched it is released before the run returns to its caller: the
normal path calls `browser.close()`, and on every path the exit of the
`with sync_playwright()` block stops Playwright (`playwrightStop`),
which closes every browser it launched.  In every trace containing
`launch`, a `playwrightStop` follows it, and every trace ends with
`playwrightStop`. -/
theorem c2_spec : ∀ l np vp g w m1 m2 s : Bool,
    (Event.launch ∈
        (VerificationScript.run_verification ⟨l, np, vp, g, w, m1, m2, s⟩).1 →
      List.Sublist [Event.launch, Event.playwrightStop]
        (VerificationScript.run_verification ⟨l, np, vp, g, w, m1, m2, s⟩).1) ∧
    (Event.launch ∈ (VerifyRefactor.run ⟨l, np, vp, g, w, m1, m2, s⟩).1 →
      List.Sublist [Event.launch, Event.playwrightStop]
        (VerifyRefactor.run ⟨l, np, vp, g, w, m1, m2, s⟩).1) ∧
    (VerificationScript.run_verification
        ⟨l, np, vp, g, w, m1, m2, s⟩).1.getLast? =
      some Event.playwrightStop ∧
    (VerifyRefactor.run ⟨l, np, vp, g, w, m1, m2, s⟩).1.getLast? =
      some Event.playwrightStop := by
  decide

/-- C2 witness: on the all-steps-succeed run of `verification_script.py`
the launch is followed by the Playwright stop that releases the
browser. -/
theorem c2_witness :
    List.Sublist [Event.launch, Event.playwrightStop]
      (VerificationScript.run_verification
        ⟨true, true, true, true, true, true, true, true⟩).1 :=
  (c2_spec true true true true true true true true).1 (by decide)

/-- C3: in every run of either script the non-log events occur strictly
in the fixed order of `verificationStepOrder` / `refactorStepOrder`
(navigate, selector wait, settling delay, pointer interaction,
screenshot, browser close), each step at most once — each trace is a
sublist of the fixed order — and in particular a screenshot is captured
only after the readiness selector has matched earlier in the same
trace. -/
theorem c3_spec : ∀ l np vp g w m1 m2 s : Bool,
    List.Sublist
      ((VerificationScript.run_verification
          ⟨l, np, vp, g, w, m1, m2, s⟩).1.filter (fun e => !e.isPrint))
      verificationStepOrder ∧
    (Event.screenshot VerificationScript.screenshot_path ∈
        (VerificationScript.run_verification ⟨l, np, vp, g, w, m1, m2, s⟩).1 →
      List.Sublist
        [Event.waitForSelector "#background-canvas",
         Event.screenshot VerificationScript.screenshot_path]
        (VerificationScript.run_verification ⟨l, np, vp, g, w, m1, m2, s⟩).1) ∧
    List.Sublist (VerifyRefactor.run ⟨l, np, vp, g, w, m1, m2, s⟩).1
      refactorStepOrder ∧
    (Event.screenshot VerifyRefactor.screenshotPath ∈
        (VerifyRefactor.run ⟨l, np, vp, g, w, m1, m2, s⟩).1 →
      List.Sublist
        [Event.waitForSelector "#particles-js canvas",
         Event.screenshot VerifyRefactor.screenshotPath]
        (VerifyRefactor.run ⟨l, np, vp, g, w, m1, m2, s⟩).1) := by
  decide

/-- C3 witness: on the all-steps-succeed run of
`verification_script.py` the screenshot is captured and the readiness
selector match precedes it in the trace. -/
theorem c3_witness :
    List.Sublist
      [Event.waitForSelector "#background-canvas",
       Event.screenshot VerificationScript.screenshot_path]
      (VerificationScript.run_verification
        ⟨true, true, true, true, true, true, true, true⟩).1 :=
  (c3_spec true true true true true true true true).2.1 (by decide)

/-- C4 counterexample: the claim that a run with failing navigation
"reports failure with error kind NavigationError" is false for
`verify_refactor.py`: on a navigation failure the run neither returns a
failure result nor logs anything — the exception propagates uncaught to
the caller. -/
theorem c4_counterexample :
    (VerifyRefactor.run ⟨true, true, true, false, true, true, true, true⟩).2 ≠
      Outcome.normal ∧
    List.all (VerifyRefactor.run
        ⟨true, true, true, false, true, true, true, true⟩).1
      (fun e => !e.isPrint) = true := by decide

/-- C4 (amended): for every run in which navigation fails, the
screenshot-capture step is never reached, no screenshot file is
created, and the files of the starting filesystem are left untouched
(in particular any existing file at the output path); on such a run
`verification_script.py` logs the navigation error and returns
normally, while `verify_refactor.py` raises the navigation error to
its caller instead of reporting a result. -/
theorem c4_amended (l np vp w m1 m2 s : Bool) (c : Nat) (fs : FS) :
    ((l && np && vp) = true →
      Event.printMsg ("Error: " ++ errMessage Exn.navigationError) ∈
        (VerificationScript.run_verification
          ⟨l, np, vp, false, w, m1, m2, s⟩).1 ∧
      (VerificationScript.run_verification
          ⟨l, np, vp, false, w, m1, m2, s⟩).2 = Outcome.normal) ∧
    Event.screenshot VerificationScript.screenshot_path ∉
      (VerificationScript.run_verification ⟨l, np, vp, false, w, m1, m2, s⟩).1 ∧
    (runFS c fs (VerificationScript.run_verification
        ⟨l, np, vp, false, w, m1, m2, s⟩).1).files = fs.files ∧
    ((l && np) = true →
      (VerifyRefactor.run ⟨l, np, vp, false, w, m1, m2, s⟩).2 =
        Outcome.raised Exn.navigationError) ∧
    Event.screenshot VerifyRefactor.screenshotPath ∉
      (VerifyRefactor.run ⟨l, np, vp, false, w, m1, m2, s⟩).1 ∧
    (runFS c fs (VerifyRefactor.run
        ⟨l, np, vp, false, w, m1, m2, s⟩).1).files = fs.files := by
  refine ⟨?_, ?_, ?_, ?_, ?_, ?_⟩
  · revert l np vp w m1 m2 s; decide
  · revert l np vp w m1 m2 s; decide
  · rw [runFS_run_verification]; simp
  · revert l np vp w m1 m2 s; decide
  · revert l np vp w m1 m2 s; decide
  · rw [runFS_refactor_run]; simp

/-- C4 witness: on the concrete navigation-failure run of
`verification_script.py` with every other step succeeding, the
navigation error is logged and the run returns normally. -/
theorem c4_witness :
    Event.printMsg ("Error: " ++ errMessage Exn.navigationError) ∈
      (VerificationScript.run_verification
        ⟨true, true, true, false, true, true, true, true⟩).1 ∧
    (VerificationScript.run_verification
        ⟨true, true, true, false, true, true, true, true⟩).2 =
      Outcome.normal :=
  (c4_amended true true true true true true true 0 ⟨[], []⟩).1 rfl

/-- C5: whenever the screenshot-capture step of either script executes,
the screenshot is written to the configured output path (the file at
that path afterwards holds this run's capture), and the output path's
parent directory exists afterwards — created as part of the save if it
was absent (Playwright creates missing parent directories of a
screenshot save path). -/
theorem c5_spec (l np vp g w m1 m2 s : Bool) (c : Nat) (fs : FS) :
    (Event.screenshot VerificationScript.screenshot_path ∈
        (VerificationScript.run_verification ⟨l, np, vp, g, w, m1, m2, s⟩).1 →
      (runFS c fs (VerificationScript.run_verification
          ⟨l, np, vp, g, w, m1, m2, s⟩).1).read
          VerificationScript.screenshot_path = some c ∧
      parentDir VerificationScript.screenshot_path ∈
        (runFS c fs (VerificationScript.run_verification
          ⟨l, np, vp, g, w, m1, m2, s⟩).1).dirs) ∧
    (Event.screenshot VerifyRefactor.screenshotPath ∈
        (VerifyRefactor.run ⟨l, np, vp, g, w, m1, m2, s⟩).1 →
      (runFS c fs (VerifyRefactor.run ⟨l, np, vp, g, w, m1, m2, s⟩).1).read
          VerifyRefactor.screenshotPath = some c ∧
      parentDir VerifyRefactor.screenshotPath ∈
        (runFS c fs (VerifyRefactor.run ⟨l, np, vp, g, w, m1, m2, s⟩).1).dirs) := by
  constructor
  · intro hmem
    have hc : (l && np && vp && g && w && m1 && m2 && s) = true := by
      revert l np vp g w m1 m2 s; decide
    rw [runFS_run_verification, if_pos hc]
    refine ⟨FS.read_write_self _ _ _, ?_⟩
    rw [FS.write_dirs, parentDir_screenshot_path]
    exact FS.mem_mkdir_self _ _
  · intro hmem
    have hc : (l && np && g && w && s) = true := by
      revert l np vp g w m1 m2 s; decide
    rw [runFS_refactor_run, if_pos hc]
    refine ⟨FS.read_write_self _ _ _, ?_⟩
    rw [FS.write_dirs, parentDir_refactor_path]
    exact FS.mem_mkdir_self _ _

/-- C5 witness: the all-steps-succeed run of `verify_refactor.py`
starting from an empty filesystem leaves this run's capture at the
output path and the output path's parent directory existing (created by
the save itself — that script never calls makedirs). -/
theorem c5_witness :
    (runFS 7 ⟨[], []⟩ (VerifyRefactor.run
        ⟨true, true, true, true, true, true, true, true⟩).1).read
        VerifyRefactor.screenshotPath = some 7 ∧
    parentDir VerifyRefactor.screenshotPath ∈
      (runFS 7 ⟨[], []⟩ (VerifyRefactor.run
        ⟨true, true, true, true, true, true, true, true⟩).1).dirs :=
  (c5_spec true true true true true true true true 7 ⟨[], []⟩).2 (by decide)

/-- C6: running `run_verification` twice in a row is safe.  The second
run (started on the filesystem the first run left behind) performs
exactly the same step sequence and outcome as the first — the script
keeps no state between runs — and its only additional filesystem
effect is overwriting the screenshot file at the output path: the
directories are unchanged, every other file path reads the same, the
output path afterwards holds the second run's capture, and a run that
never captured (any failing run) changes nothing at all the second
time. -/
theorem c6_spec (l np vp g w m1 m2 s : Bool) (c₁ c₂ : Nat) (fs : FS) :
    (runVerificationOn ⟨l, np, vp, g, w, m1, m2, s⟩ c₂
        (runVerificationOn ⟨l, np, vp, g, w, m1, m2, s⟩ c₁ fs).2).1 =
      (runVerificationOn ⟨l, np, vp, g, w, m1, m2, s⟩ c₁ fs).1 ∧
    (runFS c₂ (runFS c₁ fs (vTrace ⟨l, np, vp, g, w, m1, m2, s⟩))
        (vTrace ⟨l, np, vp, g, w, m1, m2, s⟩)).dirs =
      (runFS c₁ fs (vTrace ⟨l, np, vp, g, w, m1, m2, s⟩)).dirs ∧
    (∀ q : String, q ≠ VerificationScript.screenshot_path →
      (runFS c₂ (runFS c₁ fs (vTrace ⟨l, np, vp, g, w, m1, m2, s⟩))
          (vTrace ⟨l, np, vp, g, w, m1, m2, s⟩)).read q =
        (runFS c₁ fs (vTrace ⟨l, np, vp, g, w, m1, m2, s⟩)).read q) ∧
    (Event.screenshot VerificationScript.screenshot_path ∈
        vTrace ⟨l, np, vp, g, w, m1, m2, s⟩ →
      (runFS c₂ (runFS c₁ fs (vTrace ⟨l, np, vp, g, w, m1, m2, s⟩))
          (vTrace ⟨l, np, vp, g, w, m1, m2, s⟩)).read
          VerificationScript.screenshot_path = some c₂) ∧
    (Event.screenshot VerificationScript.screenshot_path ∉
        vTrace ⟨l, np, vp, g, w, m1, m2, s⟩ →
      runFS c₂ (runFS c₁ fs (vTrace ⟨l, np, vp, g, w, m1, m2, s⟩))
          (vTrace ⟨l, np, vp, g, w, m1, m2, s⟩) =
        runFS c₁ fs (vTrace ⟨l, np, vp, g, w, m1, m2, s⟩)) := by
  refine ⟨rfl, ?_⟩
  simp only [vTrace]
  by_cases hc : (l && np && vp && g && w && m1 && m2 && s) = true
  · rw [runFS_run_verification l np vp g w m1 m2 s c₁ fs, if_pos hc,
      runFS_run_verification l np vp g w m1 m2 s c₂, if_pos hc]
    have hd : VerificationScript.verificationDir ∈
        ((fs.mkdir VerificationScript.verificationDir).write
          VerificationScript.screenshot_path c₁).dirs := by
      rw [FS.write_dirs]; exact FS.mem_mkdir_self _ _
    rw [FS.mkdir_of_mem _ _ hd, FS.write_write_self]
    refine ⟨by rw [FS.write_dirs, FS.write_dirs], ?_, ?_, ?_⟩
    · intro q hq
      rw [FS.read_write_other _ _ _ _ hq, FS.read_write_other _ _ _ _ hq]
    · intro _
      exact FS.read_write_self _ _ _
    · intro hnot
      exact absurd ((shot_mem_vTrace_iff l np vp g w m1 m2 s).2 hc) hnot
  · rw [runFS_run_verification l np vp g w m1 m2 s c₁ fs, if_neg hc,
      runFS_run_verification l np vp g w m1 m2 s c₂, if_neg hc,
      FS.mkdir_mkdir_self]
    refine ⟨rfl, fun q _ => rfl, ?_, fun _ => rfl⟩
    intro hmem
    exact absurd ((shot_mem_vTrace_iff l np vp g w m1 m2 s).1 hmem) hc

/-- C6 witness: two concrete back-to-back all-steps-succeed runs with
captures 3 then 5 leave the second capture at the output path. -/
theorem c6_witness :
    (runFS 5 (runFS 3 ⟨[], []⟩
        (vTrace ⟨true, true, true, true, true, true, true, true⟩))
        (vTrace ⟨true, true, true, true, true, true, true, true⟩)).read
        VerificationScript.screenshot_path = some 5 :=
  (c6_spec true true true true true true true true 3 5 ⟨[], []⟩).2.2.2.1
    (by decide)

/-- C7 counterexample: the claim that both scripts use one consistent
failure convention is false.  On the same failure (navigation fails,
everything else succeeds) `verification_script.py` exits 0 while
logging an `"Error: ..."` diagnostic, whereas `verify_refactor.py`
exits nonzero and prints no diagnostic of its own. -/
theorem c7_counterexample :
    VerificationScript.mainExitCode
      ⟨true, true, true, false, true, true, true, true⟩ = 0 ∧
    List.any (VerificationScript.run_verification
        ⟨true, true, true, false, true, true, true, true⟩).1
      Event.isErrorLog = true ∧
    VerifyRefactor.mainExitCode
      ⟨true, true, true, false, true, true, true, true⟩ = 1 ∧
    List.all (VerifyRefactor.run
        ⟨true, true, true, false, true, true, true, true⟩).1
      (fun e => !e.isPrint) = true := by decide

/-- C7 (amended): both scripts exit 0 on a fully successful run.  On
failure their conventions differ: `verification_script.py` exits 0
while logging an `"Error: ..."` diagnostic for any failure after setup,
and exits nonzero for a setup (launch / new page / viewport) failure;
`verify_refactor.py` exits nonzero on every failure and never prints a
diagnostic of its own.  The repository does not use one consistent
convention across its scripts. -/
theorem c7_amended : ∀ l np vp g w m1 m2 s : Bool,
    ((l && np && vp && g && w && m1 && m2 && s) = true →
      VerificationScript.mainExitCode ⟨l, np, vp, g, w, m1, m2, s⟩ = 0) ∧
    ((l && np && g && w && s) = true →
      VerifyRefactor.mainExitCode ⟨l, np, vp, g, w, m1, m2, s⟩ = 0) ∧
    ((l && np && vp) = true →
      VerificationScript.mainExitCode ⟨l, np, vp, g, w, m1, m2, s⟩ = 0) ∧
    ((l && np && vp) = false →
      VerificationScript.mainExitCode ⟨l, np, vp, g, w, m1, m2, s⟩ = 1) ∧
    ((l && np && g && w && s) = false →
      VerifyRefactor.mainExitCode ⟨l, np, vp, g, w, m1, m2, s⟩ = 1) ∧
    ((l && np && vp) = true → (g && w && m1 && m2 && s) = false →
      List.any (VerificationScript.run_verification
          ⟨l, np, vp, g, w, m1, m2, s⟩).1 Event.isErrorLog = true) ∧
    List.any (VerifyRefactor.run ⟨l, np, vp, g, w, m1, m2, s⟩).1
      Event.isPrint = false := by
  decide

/-- C7 witness: on fully successful concrete runs both scripts exit 0;
on a concrete launch failure `verification_script.py` exits 1. -/
theorem c7_witness :
    VerificationScript.mainExitCode
      ⟨true, true, true, true, true, true, true, true⟩ = 0 ∧
    VerifyRefactor.mainExitCode
      ⟨true, true, true, true, true, true, true, true⟩ = 0 ∧
    VerificationScript.mainExitCode
      ⟨false, true, true, true, true, true, true, true⟩ = 1 :=
  ⟨(c7_amended true true true true true true true true).1 rfl,
   (c7_amended true true true true true true true true).2.1 rfl,
   (c7_amended false true true true true true true true).2.2.2.1 rfl⟩

/-- C8: in every run of `verification_script.py` (the script that
supplies a viewport size) the viewport is set on the newly opened page
— after `new_page`, before navigation begins: whenever the
"Navigating to ..." log line (printed immediately before `page.goto`)
or the completed navigation appears in the trace, the viewport-set
event precedes it. -/
theorem c8_spec : ∀ l np vp g w m1 m2 s : Bool,
    (Event.setViewport 1280 720 ∈
        (VerificationScript.run_verification ⟨l, np, vp, g, w, m1, m2, s⟩).1 →
      List.Sublist [Event.newPage, Event.setViewport 1280 720]
        (VerificationScript.run_verification ⟨l, np, vp, g, w, m1, m2, s⟩).1) ∧
    (Event.printMsg "Navigating to http://localhost:8000" ∈
        (VerificationScript.run_verification ⟨l, np, vp, g, w, m1, m2, s⟩).1 →
      List.Sublist
        [Event.setViewport 1280 720,
         Event.printMsg "Navigating to http://localhost:8000"]
        (VerificationScript.run_verification ⟨l, np, vp, g, w, m1, m2, s⟩).1) ∧
    (Event.navigate "http://localhost:8000" ∈
        (VerificationScript.run_verification ⟨l, np, vp, g, w, m1, m2, s⟩).1 →
      List.Sublist
        [Event.setViewport 1280 720, Event.navigate "http://localhost:8000"]
        (VerificationScript.run_verification ⟨l, np, vp, g, w, m1, m2, s⟩).1) := by
  decide

/-- C8 witness: on the all-steps-succeed run the viewport-set event
precedes the completed navigation in the trace. -/
theorem c8_witness :
    List.Sublist
      [Event.setViewport 1280 720, Event.navigate "http://localhost:8000"]
      (VerificationScript.run_verification
        ⟨true, true, true, true, true, true, true, true⟩).1 :=
  (c8_spec true true true true true true true true).2.2 (by decide)

/-- C9: `verify_refactor.py` is the run whose interaction-point
sequence is empty: no trace of it ever contains a pointer movement, yet
when its steps succeed it still captures the screenshot and returns
normally — interaction is optional and not required for success. -/
theorem c9_spec : ∀ l np vp g w m1 m2 s : Bool,
    List.all (VerifyRefactor.run ⟨l, np, vp, g, w, m1, m2, s⟩).1
      (fun e => !e.isMouseMove) = true ∧
    ((l && np && g && w && s) = true →
      Event.screenshot VerifyRefactor.screenshotPath ∈
        (VerifyRefactor.run ⟨l, np, vp, g, w, m1, m2, s⟩).1 ∧
      (VerifyRefactor.run ⟨l, np, vp, g, w, m1, m2, s⟩).2 = Outcome.normal) := by
  decide

/-- C9 witness: the all-steps-succeed run of `verify_refactor.py`
captures the screenshot and returns normally, with no pointer movement
in its trace. -/
theorem c9_witness :
    Event.screenshot VerifyRefactor.screenshotPath ∈
      (VerifyRefactor.run ⟨true, true, true, true, true, true, true, true⟩).1 ∧
    (VerifyRefactor.run ⟨true, true, true, true, true, true, true, true⟩).2 =
      Outcome.normal :=
  (c9_spec true true true true true true true true).2 rfl

/-- C10: every invocation of `run_verification` creates
`/home/jules/verification` (with `exist_ok`, so idempotently) as its
very first event — before the browser launch — so this filesystem side
effect occurs on every run, including runs that fail at launch,
navigation, selector wait, or capture: after any run the directory
exists, and if it already existed the run adds no directory at all. -/
theorem c10_spec (l np vp g w m1 m2 s : Bool) (c : Nat) (fs : FS) :
    (VerificationScript.run_verification ⟨l, np, vp, g, w, m1, m2, s⟩).1.take 1 =
      [Event.makedirs VerificationScript.verificationDir] ∧
    (Event.launch ∈
        (VerificationScript.run_verification ⟨l, np, vp, g, w, m1, m2, s⟩).1 →
      List.Sublist
        [Event.makedirs VerificationScript.verificationDir, Event.launch]
        (VerificationScript.run_verification ⟨l, np, vp, g, w, m1, m2, s⟩).1) ∧
    VerificationScript.verificationDir ∈
      (runFS c fs (VerificationScript.run_verification
        ⟨l, np, vp, g, w, m1, m2, s⟩).1).dirs ∧
    (VerificationScript.verificationDir ∈ fs.dirs →
      (runFS c fs (VerificationScript.run_verification
        ⟨l, np, vp, g, w, m1, m2, s⟩).1).dirs = fs.dirs) := by
  refine ⟨?_, ?_, ?_, ?_⟩
  · revert l np vp g w m1 m2 s; decide
  · revert l np vp g w m1 m2 s; decide
  · rw [runFS_run_verification]
    split
    · rw [FS.write_dirs]; exact FS.mem_mkdir_self _ _
    · exact FS.mem_mkdir_self _ _
  · intro h
    rw [runFS_run_verification]
    split
    · rw [FS.write_dirs, FS.mkdir_of_mem _ _ h]
    · rw [FS.mkdir_of_mem _ _ h]

/-- C10 witness: on a concrete run that fails at navigation, starting
from a filesystem where `/home/jules/verification` already exists, the
makedirs event still precedes the launch and the run adds no
directory. -/
theorem c10_witness :
    List.Sublist [Event.makedirs VerificationScript.verificationDir, Event.launch]
      (VerificationScript.run_verification
        ⟨true, true, true, false, true, true, true, true⟩).1 ∧
    (runFS 0 ⟨[VerificationScript.verificationDir], []⟩
        (VerificationScript.run_verification
          ⟨true, true, true, false, true, true, true, true⟩).1).dirs =
      [VerificationScript.verificationDir] :=
  ⟨(c10_spec true true true false true true true true 0
      ⟨[VerificationScript.verificationDir], []⟩).2.1 (by decide),
   (c10_spec true true true false true true true true 0
      ⟨[VerificationScript.verificationDir], []⟩).2.2.2 (by decide)⟩
